import Mathlib

/-!
Verification development for the auction controller of this repository.

The controller (addNewAuctionItem, getAllItems, getAuctionDetails,
republishItem) and the error middleware (ErrorHandler, errorMiddleware)
are embedded shallowly:

* Mongo documents become Lean structures; the store is three lists.
* Mongo object ids become `Nat`; every `Nat` id is format-valid, so the
  `mongoose.Types.ObjectId.isValid` guard (which concerns the string
  encoding of ids only) has no failing case in the model.
* JS numbers (timestamps, money amounts, counters) become `Int`; the
  controller only adds, subtracts and compares them.
* `Date.now()` becomes an explicit `now : Int` argument.
* A request body field that is absent (or falsy) is `Option.none`.
* A thrown JS exception, and an `ErrorHandler` built without a status
  code, both reach `errorMiddleware` with no `statusCode`; the model
  gives `ErrorHandler` an `Option Nat` status code, `none` meaning the
  field was never set.
* The external cloudinary upload is a boolean outcome on the request.
* Purely descriptive auction fields (description, category, condition,
  image) do not influence any claim; the model carries title and
  startingBid and elides the rest of the descriptive payload.
-/

/-- Error object of the middleware: message plus optional HTTP status. -/
structure ErrorHandler where
  message : String
  statusCode : Option Nat
deriving Repr, DecidableEq

def msgInternal : String := "Internal Server Error"

/-- The error middleware defaults a missing status code to 500 and a
missing message to the generic internal-server-error text, then answers
with that status and message.  (The JWT / CastError / mongoose
ValidationError rewrites concern store-level error objects that never
arise from the controller paths modelled here.) -/
def errorMiddleware (err : ErrorHandler) : Nat × String :=
  (err.statusCode.getD 500, if err.message = "" then msgInternal else err.message)

/-- Auction document.  Defaults for `currentBid`, `highestBidder`,
`bids`, `commissionCalculated` at creation are modelled from the spec:
the mongoose auctionSchema file is not among the sources; section 4.2 of
the spec fixes currentBid = 0, highestBidder = null, empty bid
collection, commissionCalculated = false. -/
structure Auction where
  id : Nat
  createdBy : Nat
  title : String
  startingBid : Int
  startTime : Int
  endTime : Int
  currentBid : Int
  highestBidder : Option Nat
  bids : List Nat
  commissionCalculated : Bool
deriving Repr, DecidableEq

/-- User document, settlement-relevant fields only. -/
structure User where
  id : Nat
  moneySpent : Int
  auctionsWon : Int
  unpaidCommission : Int
deriving Repr, DecidableEq

/-- Bid document: references its auction and bidder, carries an amount. -/
structure Bid where
  id : Nat
  auctionItem : Nat
  bidder : Nat
  amount : Int
deriving Repr, DecidableEq

/-- The durable store: the three Mongo collections. -/
structure Store where
  auctions : List Auction
  users : List User
  bids : List Bid
deriving Repr, DecidableEq

/-- Mongo single-document update by id, modelled on a list of users. -/
def updateUserById (uid : Nat) (f : User → User) (users : List User) : List User :=
  users.map fun u => if u.id == uid then f u else u

/-- Mongo single-document update by id, modelled on a list of auctions. -/
def updateAuctionById (aid : Nat) (f : Auction → Auction) (auctions : List Auction) : List Auction :=
  auctions.map fun a => if a.id == aid then f a else a

/-- Create-auction request body, files and upload outcome. -/
structure CreateReq where
  hasImageFile : Bool
  imageFormatAllowed : Bool
  title : Option String
  description : Option String
  category : Option String
  condition : Option String
  startingBid : Option Int
  startTime : Option Int
  endTime : Option Int
  uploadOk : Bool
deriving Repr, DecidableEq

def msgImageRequired : String := "Auction item image is required."

def msgBadFormat : String := "Invalid file format. Only PNG, JPEG, and WEBP formats are allowed."

def msgAllDetails : String := "Please provide all auction details."

def msgStartBeforeNow : String := "Auction starting time must be greater than the present time."

def msgStartAfterEnd : String := "Auction starting time must be less than the ending time."

def msgAlreadyOneActive : String := "You already have one active auction."

def msgUploadFailed : String := "Failed to upload auction image to cloudinary."

def msgAuctionNotFound : String := "Auction not found."

def msgAlreadyActiveRepublish : String := "Auction is already active, cannot republish."

def msgTimesMandatory : String := "Start time and end time for republish are mandatory."

def msgNullDeref : String := "TypeError: cannot read properties of null"

/-- addNewAuctionItem (auction controller).  Checks, in source order:
image file present; image format allowed; all body fields present;
startTime not before now; startTime before endTime; no other auction of
the seller with endTime after now; cloudinary upload; then persists the
new auction.  `newId` stands for the fresh id the store mints. -/
def addNewAuctionItem (now : Int) (userId newId : Nat) (req : CreateReq) (s : Store) :
    Except ErrorHandler (Store × Auction) :=
  if !req.hasImageFile then .error ⟨msgImageRequired, some 400⟩
  else if !req.imageFormatAllowed then .error ⟨msgBadFormat, some 400⟩
  else match req.title, req.description, req.category, req.condition,
      req.startingBid, req.startTime, req.endTime with
  | some t, some _, some _, some _, some sb, some st, some et =>
    if st < now then .error ⟨msgStartBeforeNow, some 400⟩
    else if st ≥ et then .error ⟨msgStartAfterEnd, some 400⟩
    else
      let alreadyOneAuctionActive :=
        s.auctions.filter fun a => a.createdBy == userId && decide (a.endTime > now)
      if alreadyOneAuctionActive.length > 0 then
        .error ⟨msgAlreadyOneActive, some 400⟩
      else if !req.uploadOk then .error ⟨msgUploadFailed, some 500⟩
      else
        let auctionItem : Auction :=
          { id := newId, createdBy := userId, title := t, startingBid := sb,
            startTime := st, endTime := et, currentBid := 0,
            highestBidder := none, bids := [], commissionCalculated := false }
        .ok ({ s with auctions := s.auctions ++ [auctionItem] }, auctionItem)
  | _, _, _, _, _, _, _ => .error ⟨msgAllDetails, some 400⟩

/-- Projection of an auction with the bids field excluded
(`Auction.find().select("-bids")`). -/
structure AuctionSummary where
  id : Nat
  createdBy : Nat
  title : String
  startingBid : Int
  startTime : Int
  endTime : Int
  currentBid : Int
  highestBidder : Option Nat
  commissionCalculated : Bool
deriving Repr, DecidableEq

def omitBids (a : Auction) : AuctionSummary :=
  { id := a.id, createdBy := a.createdBy, title := a.title,
    startingBid := a.startingBid, startTime := a.startTime,
    endTime := a.endTime, currentBid := a.currentBid,
    highestBidder := a.highestBidder,
    commissionCalculated := a.commissionCalculated }

/-- getAllItems: every auction, bids excluded. -/
def getAllItems (s : Store) : List AuctionSummary :=
  s.auctions.map omitBids

/-- Mongoose populate of the bids reference list: each bid id resolved
to its Bid document, ids without a document dropped. -/
def populateBids (s : Store) (a : Auction) : List Bid :=
  a.bids.filterMap fun bidId => s.bids.find? fun b => b.id == bidId

/-- Descending-amount comparator of getAuctionDetails
(`(a, b) => b.amount - a.amount`): x may precede y when
y.amount ≤ x.amount. -/
def bidDescending (x y : Bid) : Bool :=
  decide (y.amount ≤ x.amount)

/-- getAuctionDetails: look the auction up, populate its bids, answer
with the auction and its bidders sorted by amount descending. -/
def getAuctionDetails (s : Store) (aid : Nat) : Except ErrorHandler (Auction × List Bid) :=
  match s.auctions.find? (fun a => a.id == aid) with
  | none => .error ⟨msgAuctionNotFound, some 404⟩
  | some auctionItem =>
      .ok (auctionItem, (populateBids s auctionItem).mergeSort bidDescending)

/-- The per-user settlement reversal a republish applies to the
recorded highest bidder: moneySpent -= currentBid, auctionsWon -= 1. -/
def reversalOf (auctionItem : Auction) : User → User := fun u =>
  { u with moneySpent := u.moneySpent - auctionItem.currentBid,
           auctionsWon := u.auctionsWon - 1 }

/-- The update republish applies to the requesting user:
unpaidCommission := 0. -/
def clearUnpaid : User → User := fun u => { u with unpaidCommission := 0 }

/-- Settlement-reversal block of republishItem: when a highestBidder is
recorded, `User.findById` is dereferenced without a null check — a
missing user document raises a TypeError (an error object with no
status code); otherwise that user loses currentBid from moneySpent and
one from auctionsWon. -/
def reverseHighestBidderSettlement (auctionItem : Auction) (s : Store) :
    Except ErrorHandler Store :=
  match auctionItem.highestBidder with
  | none => .ok s
  | some w =>
    match s.users.find? (fun u => u.id == w) with
    | none => .error ⟨msgNullDeref, none⟩
    | some _ =>
      .ok { s with users := updateUserById w (reversalOf auctionItem) s.users }

/-- republishItem (auction controller).  In source order: find the
auction (404 when absent); reject when endTime is still in the future;
require startTime and endTime in the body — note the source builds this
ErrorHandler without a status code; the same two scheduling checks as
creation; reverse the previous settlement; reset the auction document;
delete the bids of this auction and zero the requesting user's
unpaidCommission. -/
def republishItem (now : Int) (reqUserId aid : Nat) (startTime endTime : Option Int)
    (s : Store) : Except ErrorHandler (Store × Auction) :=
  match s.auctions.find? (fun a => a.id == aid) with
  | none => .error ⟨msgAuctionNotFound, some 404⟩
  | some auctionItem =>
    if auctionItem.endTime > now then
      .error ⟨msgAlreadyActiveRepublish, some 400⟩
    else match startTime, endTime with
      | some st, some et =>
        if st < now then .error ⟨msgStartBeforeNow, some 400⟩
        else if st ≥ et then .error ⟨msgStartAfterEnd, some 400⟩
        else match reverseHighestBidderSettlement auctionItem s with
          | .error e => .error e
          | .ok s1 =>
            let updated : Auction :=
              { auctionItem with startTime := st, endTime := et, bids := [],
                                 commissionCalculated := false, currentBid := 0,
                                 highestBidder := none }
            let s2 := { s1 with auctions := updateAuctionById aid (fun _ => updated) s1.auctions }
            let remainingBids := s2.bids.filter fun b => !(b.auctionItem == aid)
            let s3 := { s2 with bids := remainingBids,
                                users := updateUserById reqUserId clearUnpaid s2.users }
            .ok (s3, updated)
      | _, _ => .error ⟨msgTimesMandatory, none⟩

/-- Modelled from the spec: the per-winner settlement of the Auction
Closer (section 4.4): moneySpent += currentBid, auctionsWon += 1,
unpaidCommission += fee. -/
def settlementOf (fee : Int) (a : Auction) : User → User := fun u =>
  { u with moneySpent := u.moneySpent + a.currentBid,
           auctionsWon := u.auctionsWon + 1,
           unpaidCommission := u.unpaidCommission + fee }

/-- Marking a settled auction: commissionCalculated := true. -/
def setCommissionFlag : Auction → Auction := fun x =>
  { x with commissionCalculated := true }

/-- Modelled from the spec: the Auction Closer of section 4.4 is not
among the source files under src.  For a due auction with a
highestBidder it applies winner.moneySpent += currentBid,
winner.auctionsWon += 1, winner.unpaidCommission += fee and sets
commissionCalculated; with no winner it only sets the flag. -/
def closeAuction (fee : Int) (aid : Nat) (s : Store) : Store :=
  match s.auctions.find? (fun a => a.id == aid) with
  | none => s
  | some a =>
    match a.highestBidder with
    | none =>
      { s with auctions := updateAuctionById aid setCommissionFlag s.auctions }
    | some w =>
      { s with users := updateUserById w (settlementOf fee a) s.users,
               auctions := updateAuctionById aid setCommissionFlag s.auctions }

/-! ## Helper lemmas -/

lemma find?_map_pres {α : Type} (g : α → α) (p : α → Bool)
    (hp : ∀ x, p (g x) = p x) :
    ∀ l : List α, (l.map g).find? p = (l.find? p).map g
  | [] => rfl
  | x :: xs => by
    rw [List.map_cons, List.find?_cons, List.find?_cons, hp x]
    cases h : p x
    · simpa using find?_map_pres g p hp xs
    · simp

lemma find?_updateUserById (uid w : Nat) (f : User → User)
    (hf : ∀ u, (f u).id = u.id) (l : List User) :
    (updateUserById uid f l).find? (fun u => u.id == w) =
      (l.find? (fun u => u.id == w)).map (fun u => if u.id == uid then f u else u) := by
  refine find?_map_pres _ _ (fun u => ?_) l
  by_cases h : u.id == uid
  · simp [h, hf]
  · simp [h]

lemma reverse_settlement_ok (a : Auction) (s s1 : Store)
    (h : reverseHighestBidderSettlement a s = .ok s1) :
    s1.auctions = s.auctions ∧ s1.bids = s.bids ∧
    ((a.highestBidder = none ∧ s1 = s) ∨
     (∃ w u, a.highestBidder = some w ∧
        s.users.find? (fun x => x.id == w) = some u ∧
        s1.users = updateUserById w (reversalOf a) s.users)) := by
  unfold reverseHighestBidderSettlement at h
  split at h
  · rename_i hnone
    obtain rfl : s = s1 := by simpa using h
    exact ⟨rfl, rfl, Or.inl ⟨hnone, rfl⟩⟩
  · rename_i w hsome
    split at h
    · simp at h
    · rename_i u hu
      obtain rfl : _ = s1 := by simpa using h
      exact ⟨rfl, rfl, Or.inr ⟨w, u, hsome, hu, rfl⟩⟩

lemma republishItem_ok_char (now : Int) (reqUserId aid : Nat) (st et : Option Int)
    (s s' : Store) (item : Auction)
    (hok : republishItem now reqUserId aid st et s = .ok (s', item)) :
    ∃ a st' et' s1,
      s.auctions.find? (fun x => x.id == aid) = some a ∧
      st = some st' ∧ et = some et' ∧
      a.endTime ≤ now ∧ now ≤ st' ∧ st' < et' ∧
      reverseHighestBidderSettlement a s = .ok s1 ∧
      item = { a with startTime := st', endTime := et', bids := [],
                      commissionCalculated := false, currentBid := 0,
                      highestBidder := none } ∧
      s'.auctions = updateAuctionById aid (fun _ => item) s1.auctions ∧
      s'.bids = s1.bids.filter (fun b => !(b.auctionItem == aid)) ∧
      s'.users = updateUserById reqUserId clearUnpaid s1.users := by
  unfold republishItem at hok
  split at hok
  · simp at hok
  · rename_i a hfind
    split at hok
    · simp at hok
    · rename_i hendle
      split at hok
      · rename_i st' et'
        split at hok
        · simp at hok
        · split at hok
          · simp at hok
          · split at hok
            · simp at hok
            · rename_i h1 h2 s1 hrev
              simp only [Except.ok.injEq, Prod.mk.injEq] at hok
              obtain ⟨hs', hitem⟩ := hok
              refine ⟨a, st', et', s1, hfind, rfl, rfl, by omega, by omega, by omega,
                hrev, hitem.symm, ?_, ?_, ?_⟩
              · rw [← hs', ← hitem]
              · rw [← hs']
              · rw [← hs']
      · simp at hok

/-! ## Concrete scenario stores -/

def emptyStore : Store := { auctions := [], users := [], bids := [] }

/-- An auction of seller 1 that is scheduled but not yet active at time 5. -/
def scheduledAuction : Auction :=
  { id := 3, createdBy := 1, title := "rug", startingBid := 5, startTime := 10,
    endTime := 20, currentBid := 0, highestBidder := none, bids := [],
    commissionCalculated := false }

def scheduledStore : Store := { auctions := [scheduledAuction], users := [], bids := [] }

def secondCreateReq : CreateReq :=
  { hasImageFile := true, imageFormatAllowed := true, title := some "vase",
    description := some "old", category := some "art", condition := some "fair",
    startingBid := some 10, startTime := some 6, endTime := some 8, uploadOk := true }

def boundaryCreateReq : CreateReq :=
  { hasImageFile := true, imageFormatAllowed := true, title := some "clock",
    description := some "antique", category := some "decor", condition := some "good",
    startingBid := some 10, startTime := some 100, endTime := some 200, uploadOk := true }

def boundaryAuction : Auction :=
  { id := 7, createdBy := 1, title := "clock", startingBid := 10, startTime := 100,
    endTime := 200, currentBid := 0, highestBidder := none, bids := [],
    commissionCalculated := false }

def lateCreateReq : CreateReq :=
  { hasImageFile := true, imageFormatAllowed := true, title := some "chair",
    description := some "oak", category := some "furniture", condition := some "good",
    startingBid := some 10, startTime := some 50, endTime := some 60, uploadOk := true }

/-- A closed auction whose recorded highestBidder has no User document. -/
def userMissingStore : Store :=
  { auctions := [{ id := 1, createdBy := 2, title := "lamp", startingBid := 10,
                   startTime := 0, endTime := 50, currentBid := 40,
                   highestBidder := some 5, bids := [9],
                   commissionCalculated := true }],
    users := [],
    bids := [{ id := 9, auctionItem := 1, bidder := 5, amount := 40 }] }

/-- A closed auction with no bids, owned by user 2 who carries an unpaid
commission balance. -/
def closedAuctionStore : Store :=
  { auctions := [{ id := 1, createdBy := 2, title := "desk", startingBid := 10,
                   startTime := 0, endTime := 50, currentBid := 0,
                   highestBidder := none, bids := [],
                   commissionCalculated := true }],
    users := [{ id := 2, moneySpent := 0, auctionsWon := 0, unpaidCommission := 7 }],
    bids := [] }

/-! ## Claim theorems -/

/-- C10: a republish of a closed auction whose highestBidder id has no
User document reaches the null dereference in the settlement reversal:
the operation aborts with the TypeError (no status code, so the
middleware answers 500) and no updated state is produced, so the
auction is not reset. -/
theorem auction_C10 :
    republishItem 100 2 1 (some 150) (some 200) userMissingStore =
      .error ⟨msgNullDeref, none⟩ ∧
    errorMiddleware ⟨msgNullDeref, none⟩ = (500, msgNullDeref) := ⟨rfl, rfl⟩

/-- C7: a republish request on an existing closed auction that omits
endTime fails, but the ErrorHandler is built without a status code, so
the middleware classifies it as 500 (internal server error), not as a
4xx client error as the spec requires of a ValidationError. -/
theorem auction_C7_bug :
    republishItem 100 2 1 (some 150) none closedAuctionStore =
      .error ⟨msgTimesMandatory, none⟩ ∧
    errorMiddleware ⟨msgTimesMandatory, none⟩ = (500, msgTimesMandatory) := ⟨rfl, rfl⟩

/-- C3: republishing an existing auction whose endTime is still in the
future fails with the still-active error and produces no updated state;
any successful republish implies endTime ≤ now. -/
theorem auction_C3 (now : Int) (reqUserId aid : Nat) (st et : Option Int)
    (s : Store) (a : Auction)
    (ha : s.auctions.find? (fun x => x.id == aid) = some a) :
    (a.endTime > now →
      republishItem now reqUserId aid st et s =
        .error ⟨msgAlreadyActiveRepublish, some 400⟩) ∧
    (∀ s' item, republishItem now reqUserId aid st et s = .ok (s', item) →
      a.endTime ≤ now) := by
  constructor
  · intro h
    unfold republishItem
    rw [ha]
    simp [h]
  · intro s' item hok
    obtain ⟨a2, st', et', s1, hfind, -, -, hle, -, -, -, -, -, -, -⟩ :=
      republishItem_ok_char _ _ _ _ _ _ _ _ hok
    rw [ha] at hfind
    obtain rfl : a = a2 := by simpa using hfind
    exact hle

/-- C3 witness: a still-active auction (endTime 20 at time 5) concretely
triggers both conjuncts. -/
theorem auction_C3_witness :
    scheduledStore.auctions.find? (fun x => x.id == 3) = some scheduledAuction ∧
    ((scheduledAuction.endTime > 5 →
       republishItem 5 2 3 (some 6) (some 8) scheduledStore =
         .error ⟨msgAlreadyActiveRepublish, some 400⟩) ∧
     (∀ s' item, republishItem 5 2 3 (some 6) (some 8) scheduledStore = .ok (s', item) →
       scheduledAuction.endTime ≤ 5)) :=
  ⟨rfl, auction_C3 5 2 3 (some 6) (some 8) scheduledStore scheduledAuction rfl⟩

/-- C8: listing returns a bid-free projection of every auction, and the
detail endpoint answers with the populated bids of the auction sorted
by amount descending (a permutation of the populated bids that is
pairwise non-increasing in amount). -/
theorem auction_C8 (s : Store) (aid : Nat) (a : Auction)
    (ha : s.auctions.find? (fun x => x.id == aid) = some a) :
    (∀ x ∈ s.auctions, omitBids x ∈ getAllItems s) ∧
    getAuctionDetails s aid =
      .ok (a, (populateBids s a).mergeSort bidDescending) ∧
    ((populateBids s a).mergeSort bidDescending).Pairwise
      (fun x y => y.amount ≤ x.amount) ∧
    ((populateBids s a).mergeSort bidDescending).Perm (populateBids s a) := by
  have htrans : ∀ (x y z : Bid), bidDescending x y → bidDescending y z →
      bidDescending x z := by
    intro x y z hxy hyz
    simp only [bidDescending, decide_eq_true_eq] at *
    omega
  have htotal : ∀ (x y : Bid), bidDescending x y || bidDescending y x := by
    intro x y
    simp only [bidDescending, Bool.or_eq_true, decide_eq_true_eq]
    exact le_total _ _
  refine ⟨fun x hx => List.mem_map_of_mem omitBids hx, ?_, ?_, List.mergeSort_perm _ _⟩
  · unfold getAuctionDetails
    rw [ha]
  · have hs := @List.sorted_mergeSort Bid bidDescending htrans htotal (populateBids s a)
    refine hs.imp ?_
    intro x y h
    simpa [bidDescending] using h

/-- A closed auction with two bids for the detail endpoint. -/
def detailAuction : Auction :=
  { id := 1, createdBy := 2, title := "lamp", startingBid := 10, startTime := 0,
    endTime := 50, currentBid := 40, highestBidder := some 5, bids := [8, 9],
    commissionCalculated := false }

def detailStore : Store :=
  { auctions := [detailAuction],
    users := [{ id := 5, moneySpent := 40, auctionsWon := 1, unpaidCommission := 2 }],
    bids := [{ id := 8, auctionItem := 1, bidder := 4, amount := 25 },
             { id := 9, auctionItem := 1, bidder := 5, amount := 40 }] }

/-- C8 witness: concrete two-bid store. -/
theorem auction_C8_witness :
    detailStore.auctions.find? (fun x => x.id == 1) = some detailAuction ∧
    ((∀ x ∈ detailStore.auctions, omitBids x ∈ getAllItems detailStore) ∧
     getAuctionDetails detailStore 1 =
       .ok (detailAuction, (populateBids detailStore detailAuction).mergeSort bidDescending) ∧
     ((populateBids detailStore detailAuction).mergeSort bidDescending).Pairwise
       (fun x y => y.amount ≤ x.amount) ∧
     ((populateBids detailStore detailAuction).mergeSort bidDescending).Perm
       (populateBids detailStore detailAuction)) :=
  ⟨rfl, auction_C8 detailStore 1 detailAuction rfl⟩

lemma filter_length_pos_iff_any {α : Type} (p : α → Bool) (l : List α) :
    0 < (l.filter p).length ↔ l.any p = true := by
  induction l with
  | nil => simp
  | cons x xs ih =>
    by_cases h : p x <;> simp [List.filter_cons, h, ih]

/-- C1 (amended): with the earlier validations passing, creation fails
with the already-one-active-auction conflict exactly when the seller
already has some auction whose endTime lies after now — whether or not
that auction has started; so the guard also blocks sellers whose only
auction is still scheduled, while sellers with no future-ending auction
pass it. -/
theorem auction_C1 (now st et : Int) (userId newId : Nat) (req : CreateReq)
    (s : Store) (t d c cond : String) (sb : Int)
    (himg : req.hasImageFile = true) (hfmt : req.imageFormatAllowed = true)
    (ht : req.title = some t) (hd : req.description = some d)
    (hc : req.category = some c) (hcond : req.condition = some cond)
    (hsb : req.startingBid = some sb) (hst : req.startTime = some st)
    (het : req.endTime = some et) (h1 : ¬ st < now) (h2 : ¬ st ≥ et) :
    addNewAuctionItem now userId newId req s =
        .error ⟨msgAlreadyOneActive, some 400⟩ ↔
      (s.auctions.any fun a => a.createdBy == userId && decide (a.endTime > now)) = true := by
  unfold addNewAuctionItem
  rw [himg, hfmt, ht, hd, hc, hcond, hsb, hst, het]
  simp only [Bool.not_true, Bool.false_eq_true, if_false]
  rw [if_neg h1, if_neg h2]
  by_cases hfilt :
      0 < (s.auctions.filter fun a => a.createdBy == userId && decide (a.endTime > now)).length
  · rw [if_pos hfilt]
    simp only [true_iff, iff_true]
    exact (filter_length_pos_iff_any _ _).mp hfilt
  · rw [if_neg hfilt]
    constructor
    · intro h
      cases hup : req.uploadOk <;> rw [hup] at h <;> simp [msgUploadFailed, msgAlreadyOneActive] at h
    · intro hany
      exact absurd ((filter_length_pos_iff_any _ _).mpr hany) hfilt

/-- C1 witness: seller 1 owns only the scheduled auction (endTime 20 at
time 5), and creation is indeed blocked by the conflict guard. -/
theorem auction_C1_witness :
    (¬ (6 : Int) < 5) ∧ (¬ (6 : Int) ≥ 8) ∧
    (addNewAuctionItem 5 1 7 secondCreateReq scheduledStore =
        .error ⟨msgAlreadyOneActive, some 400⟩ ↔
      (scheduledStore.auctions.any fun a => a.createdBy == 1 && decide (a.endTime > 5)) = true) :=
  ⟨by omega, by omega,
    auction_C1 5 6 8 1 7 secondCreateReq scheduledStore "vase" "old" "art" "fair" 10
      rfl rfl rfl rfl rfl rfl rfl rfl rfl (by omega) (by omega)⟩

/-- C1 counterexample: at time 5, seller 1 has one auction, scheduled
for the window 10 to 20, hence not active (startTime has not been
reached) — yet creating a second auction is rejected with the conflict
error, refuting that a seller with no active auction is never blocked. -/
theorem auction_C1_counterexample :
    scheduledStore.auctions = [scheduledAuction] ∧
    ¬ (scheduledAuction.startTime ≤ 5 ∧ (5 : Int) < scheduledAuction.endTime) ∧
    addNewAuctionItem 5 1 7 secondCreateReq scheduledStore =
      .error ⟨msgAlreadyOneActive, some 400⟩ :=
  ⟨rfl, by decide, rfl⟩

/-- C2 (amended): with the request fields present, creation fails with
a 400 ValidationError when startTime is strictly before now, and fails
with a 400 ValidationError when startTime ≥ endTime; the boundary case
startTime = now is not rejected by the past-start check because the
source compares with strict less-than. -/
theorem auction_C2 (now st et : Int) (userId newId : Nat) (req : CreateReq)
    (s : Store) (t d c cond : String) (sb : Int)
    (himg : req.hasImageFile = true) (hfmt : req.imageFormatAllowed = true)
    (ht : req.title = some t) (hd : req.description = some d)
    (hc : req.category = some c) (hcond : req.condition = some cond)
    (hsb : req.startingBid = some sb) (hst : req.startTime = some st)
    (het : req.endTime = some et) :
    (st < now → addNewAuctionItem now userId newId req s =
       .error ⟨msgStartBeforeNow, some 400⟩) ∧
    (¬ st < now → st ≥ et → addNewAuctionItem now userId newId req s =
       .error ⟨msgStartAfterEnd, some 400⟩) := by
  unfold addNewAuctionItem
  rw [himg, hfmt, ht, hd, hc, hcond, hsb, hst, het]
  constructor
  · intro h
    simp [h]
  · intro h1 h2
    simp only [Bool.not_true, Bool.false_eq_true, if_false]
    rw [if_neg h1, if_pos h2]

/-- C2 witness: a request whose startTime 50 lies before now = 100 is
rejected with the past-start validation error. -/
theorem auction_C2_witness :
    ((50 : Int) < 100 → addNewAuctionItem 100 1 7 lateCreateReq emptyStore =
       .error ⟨msgStartBeforeNow, some 400⟩) ∧
    (¬ (50 : Int) < 100 → (50 : Int) ≥ 60 → addNewAuctionItem 100 1 7 lateCreateReq emptyStore =
       .error ⟨msgStartAfterEnd, some 400⟩) :=
  auction_C2 100 50 60 1 7 lateCreateReq emptyStore "chair" "oak" "furniture" "good" 10
    rfl rfl rfl rfl rfl rfl rfl rfl rfl

/-- C2 counterexample: at now = 100 a request with startTime exactly
100 (so startTime ≤ now) is accepted and the auction is persisted,
refuting that every request with startTime ≤ now fails. -/
theorem auction_C2_counterexample :
    (100 : Int) ≤ 100 ∧
    addNewAuctionItem 100 1 7 boundaryCreateReq emptyStore =
      .ok ({ auctions := [boundaryAuction], users := [], bids := [] }, boundaryAuction) :=
  ⟨le_refl _, rfl⟩

lemma find?_updateAuctionById (aid w : Nat) (f : Auction → Auction)
    (hf : ∀ x, (f x).id = x.id) (l : List Auction) :
    (updateAuctionById aid f l).find? (fun x => x.id == w) =
      (l.find? (fun x => x.id == w)).map (fun x => if x.id == aid then f x else x) := by
  refine find?_map_pres _ _ (fun x => ?_) l
  by_cases h : (x.id == aid) = true
  · simp [h, hf]
  · simp [h]

lemma find?_updateAuctionById_self (aid : Nat) (item a : Auction) (l : List Auction)
    (hfind : l.find? (fun x => x.id == aid) = some a) (hid : item.id = a.id) :
    (updateAuctionById aid (fun _ => item) l).find? (fun x => x.id == aid) = some item := by
  have hpa : (a.id == aid) = true := by simpa using List.find?_some hfind
  have hpi : (item.id == aid) = true := by rw [hid]; exact hpa
  have hp : ∀ x : Auction, ((if x.id == aid then item else x).id == aid) = (x.id == aid) := by
    intro x
    by_cases h : (x.id == aid) = true
    · rw [if_pos h, h, hpi]
    · rw [if_neg h]
  have hmap := find?_map_pres (fun x => if x.id == aid then item else x)
    (fun x => x.id == aid) hp l
  simp only [updateAuctionById]
  rw [hmap, hfind]
  have haid : a.id = aid := by simpa using hpa
  simp [haid]

/-- C5: a successful republish answers with the auction carrying the
requested startTime and endTime, an empty bid list, the commission flag
cleared, currentBid 0 and no highestBidder; that document is what the
store now holds under the auction id, and no Bid record of this auction
survives in the store. -/
theorem auction_C5 (now : Int) (reqUserId aid : Nat) (st et : Option Int)
    (s s' : Store) (item : Auction)
    (hok : republishItem now reqUserId aid st et s = .ok (s', item)) :
    st = some item.startTime ∧ et = some item.endTime ∧
    item.bids = [] ∧ item.commissionCalculated = false ∧
    item.currentBid = 0 ∧ item.highestBidder = none ∧
    s'.auctions.find? (fun x => x.id == aid) = some item ∧
    ∀ b ∈ s'.bids, b.auctionItem ≠ aid := by
  obtain ⟨a, st', et', s1, hfind, hst, het, -, -, -, hrev, hitem, hauc, hbids, -⟩ :=
    republishItem_ok_char _ _ _ _ _ _ _ _ hok
  obtain ⟨hs1a, hs1b, -⟩ := reverse_settlement_ok _ _ _ hrev
  refine ⟨?_, ?_, ?_, ?_, ?_, ?_, ?_, ?_⟩
  · rw [hitem]; exact hst
  · rw [hitem]; exact het
  · rw [hitem]
  · rw [hitem]
  · rw [hitem]
  · rw [hitem]
  · rw [hauc, hs1a]
    exact find?_updateAuctionById_self aid item a s.auctions hfind (by rw [hitem])
  · rw [hbids, hs1b]
    intro b hb
    simp only [List.mem_filter] at hb
    simpa using hb.2

/-- C6: after any successful republish, the record of the requesting
user holds unpaidCommission 0, whatever its prior value was and whether
or not the requester was the recorded highestBidder. -/
theorem auction_C6 (now : Int) (reqUserId aid : Nat) (st et : Option Int)
    (s s' : Store) (item : Auction) (u : User)
    (hok : republishItem now reqUserId aid st et s = .ok (s', item))
    (hu : s.users.find? (fun x => x.id == reqUserId) = some u) :
    ∃ u', s'.users.find? (fun x => x.id == reqUserId) = some u' ∧
      u'.unpaidCommission = 0 := by
  obtain ⟨a, st', et', s1, -, -, -, -, -, -, hrev, -, -, -, husers⟩ :=
    republishItem_ok_char _ _ _ _ _ _ _ _ hok
  obtain ⟨-, -, hcase⟩ := reverse_settlement_ok _ _ _ hrev
  have hfind1 : ∃ u1, s1.users.find? (fun x => x.id == reqUserId) = some u1 := by
    rcases hcase with ⟨-, rfl⟩ | ⟨w, u2, -, -, hs1u⟩
    · exact ⟨u, hu⟩
    · rw [hs1u, find?_updateUserById w reqUserId (reversalOf a) (fun v => rfl), hu]
      exact ⟨_, rfl⟩
  obtain ⟨u1, hu1⟩ := hfind1
  have hpu1 : (u1.id == reqUserId) = true := by simpa using List.find?_some hu1
  rw [husers, find?_updateUserById reqUserId reqUserId clearUnpaid (fun v => rfl), hu1]
  exact ⟨_, rfl, by simp [hpu1, clearUnpaid]⟩

/-- C4: on a successful republish, when the auction carried a
highestBidder that user's stored record loses exactly currentBid from
moneySpent and exactly 1 from auctionsWon; when it carried none, every
user's moneySpent and auctionsWon are unchanged. -/
theorem auction_C4 (now : Int) (reqUserId aid : Nat) (st et : Option Int)
    (s s' : Store) (item a : Auction)
    (ha : s.auctions.find? (fun x => x.id == aid) = some a)
    (hok : republishItem now reqUserId aid st et s = .ok (s', item)) :
    (∀ w u, a.highestBidder = some w →
       s.users.find? (fun x => x.id == w) = some u →
       ∃ u', s'.users.find? (fun x => x.id == w) = some u' ∧
         u'.moneySpent = u.moneySpent - a.currentBid ∧
         u'.auctionsWon = u.auctionsWon - 1) ∧
    (a.highestBidder = none →
       s'.users.map (fun u => (u.moneySpent, u.auctionsWon)) =
         s.users.map (fun u => (u.moneySpent, u.auctionsWon))) := by
  obtain ⟨a2, st', et', s1, hfind, -, -, -, -, -, hrev, -, -, -, husers⟩ :=
    republishItem_ok_char _ _ _ _ _ _ _ _ hok
  rw [ha] at hfind
  obtain rfl : a = a2 := by simpa using hfind
  obtain ⟨-, -, hcase⟩ := reverse_settlement_ok _ _ _ hrev
  constructor
  · intro w u hw hu
    rcases hcase with ⟨hnone, -⟩ | ⟨w2, u2, hw2, hu2, hs1u⟩
    · rw [hw] at hnone
      simp at hnone
    · rw [hw] at hw2
      obtain rfl : w = w2 := by simpa using hw2
      rw [hu] at hu2
      obtain rfl : u = u2 := by simpa using hu2
      have hpu : (u.id == w) = true := by simpa using List.find?_some hu
      rw [husers, hs1u,
          find?_updateUserById reqUserId w clearUnpaid (fun v => rfl),
          find?_updateUserById w w (reversalOf a) (fun v => rfl), hu]
      simp only [Option.map_some']
      refine ⟨_, rfl, ?_, ?_⟩ <;>
        · rw [if_pos hpu]
          simp only [clearUnpaid, reversalOf]
          split <;> rfl
  · intro hnone
    rcases hcase with ⟨-, rfl⟩ | ⟨w2, u2, hw2, -, -⟩
    · rw [husers]
      simp only [updateUserById]
      rw [List.map_map]
      refine List.map_congr_left ?_
      intro v hv
      by_cases hc : (v.id == reqUserId) = true <;> simp [Function.comp, hc, clearUnpaid]
    · rw [hnone] at hw2
      simp at hw2

/-! ## Concrete successful republish scenario -/

def winnerUser : User := { id := 5, moneySpent := 40, auctionsWon := 1, unpaidCommission := 2 }

def sellerUser : User := { id := 2, moneySpent := 10, auctionsWon := 0, unpaidCommission := 7 }

def settledAuction : Auction :=
  { id := 1, createdBy := 2, title := "lamp", startingBid := 10, startTime := 0,
    endTime := 50, currentBid := 40, highestBidder := some 5, bids := [9],
    commissionCalculated := true }

def settledStore : Store :=
  { auctions := [settledAuction], users := [winnerUser, sellerUser],
    bids := [{ id := 9, auctionItem := 1, bidder := 5, amount := 40 }] }

def republishedAuction : Auction :=
  { id := 1, createdBy := 2, title := "lamp", startingBid := 10, startTime := 150,
    endTime := 200, currentBid := 0, highestBidder := none, bids := [],
    commissionCalculated := false }

def republishedStore : Store :=
  { auctions := [republishedAuction],
    users := [{ id := 5, moneySpent := 0, auctionsWon := 0, unpaidCommission := 2 },
              { id := 2, moneySpent := 10, auctionsWon := 0, unpaidCommission := 0 }],
    bids := [] }

/-- C4 witness: republishing the settled auction at time 100 reverses
winner 5 from moneySpent 40 and auctionsWon 1 down by 40 and 1. -/
theorem auction_C4_witness :
    settledStore.auctions.find? (fun x => x.id == 1) = some settledAuction ∧
    republishItem 100 2 1 (some 150) (some 200) settledStore =
      .ok (republishedStore, republishedAuction) ∧
    ((∀ w u, settledAuction.highestBidder = some w →
        settledStore.users.find? (fun x => x.id == w) = some u →
        ∃ u', republishedStore.users.find? (fun x => x.id == w) = some u' ∧
          u'.moneySpent = u.moneySpent - settledAuction.currentBid ∧
          u'.auctionsWon = u.auctionsWon - 1) ∧
     (settledAuction.highestBidder = none →
        republishedStore.users.map (fun u => (u.moneySpent, u.auctionsWon)) =
          settledStore.users.map (fun u => (u.moneySpent, u.auctionsWon)))) :=
  ⟨rfl, rfl,
    auction_C4 100 2 1 (some 150) (some 200) settledStore republishedStore
      republishedAuction settledAuction rfl rfl⟩

/-- C5 witness: the same republish resets the stored auction and
leaves no Bid record of it. -/
theorem auction_C5_witness :
    republishItem 100 2 1 (some 150) (some 200) settledStore =
      .ok (republishedStore, republishedAuction) ∧
    (some (150 : Int) = some republishedAuction.startTime ∧
     some (200 : Int) = some republishedAuction.endTime ∧
     republishedAuction.bids = [] ∧
     republishedAuction.commissionCalculated = false ∧
     republishedAuction.currentBid = 0 ∧
     republishedAuction.highestBidder = none ∧
     republishedStore.auctions.find? (fun x => x.id == 1) = some republishedAuction ∧
     ∀ b ∈ republishedStore.bids, b.auctionItem ≠ 1) :=
  ⟨rfl, auction_C5 100 2 1 (some 150) (some 200) settledStore republishedStore
    republishedAuction rfl⟩

/-- C6 witness: requester 2 had unpaidCommission 7; after the republish
their stored record has unpaidCommission 0. -/
theorem auction_C6_witness :
    republishItem 100 2 1 (some 150) (some 200) settledStore =
      .ok (republishedStore, republishedAuction) ∧
    settledStore.users.find? (fun x => x.id == 2) = some sellerUser ∧
    (∃ u', republishedStore.users.find? (fun x => x.id == 2) = some u' ∧
      u'.unpaidCommission = 0) :=
  ⟨rfl, rfl,
    auction_C6 100 2 1 (some 150) (some 200) settledStore republishedStore
      republishedAuction sellerUser rfl rfl⟩

/-- C9: applying the spec-modelled close settlement to the winner and
then one successful republish of the same auction restores the winner's
moneySpent and auctionsWon to their values before the close: the
republish subtracts exactly the currentBid the close added and exactly
the one auction won, with no residue. -/
theorem auction_C9 (now fee : Int) (reqUserId aid w : Nat) (st et : Option Int)
    (s s' : Store) (item a : Auction) (u : User)
    (ha : s.auctions.find? (fun x => x.id == aid) = some a)
    (hw : a.highestBidder = some w)
    (hu : s.users.find? (fun x => x.id == w) = some u)
    (hok : republishItem now reqUserId aid st et (closeAuction fee aid s) = .ok (s', item)) :
    ∃ u', s'.users.find? (fun x => x.id == w) = some u' ∧
      u'.moneySpent = u.moneySpent ∧ u'.auctionsWon = u.auctionsWon := by
  have hpu : (u.id == w) = true := by simpa using List.find?_some hu
  have hpa : (a.id == aid) = true := by simpa using List.find?_some ha
  have hsc : closeAuction fee aid s =
      { s with users := updateUserById w (settlementOf fee a) s.users,
               auctions := updateAuctionById aid setCommissionFlag s.auctions } := by
    unfold closeAuction
    rw [ha]
    dsimp only
    rw [hw]
  rw [hsc] at hok
  obtain ⟨a2, st', et', s1, hfind2, -, -, -, -, -, hrev, -, -, -, husers⟩ :=
    republishItem_ok_char _ _ _ _ _ _ _ _ hok
  dsimp only at hfind2
  rw [find?_updateAuctionById aid aid setCommissionFlag (fun x => rfl) s.auctions,
      ha] at hfind2
  simp only [Option.map_some'] at hfind2
  rw [if_pos hpa] at hfind2
  obtain rfl : setCommissionFlag a = a2 := by simpa using hfind2
  have ha2b : (setCommissionFlag a).highestBidder = some w := hw
  obtain ⟨-, -, hcase⟩ := reverse_settlement_ok _ _ _ hrev
  rcases hcase with ⟨hnone, -⟩ | ⟨w2, u2, hw2, hu2, hs1u⟩
  · rw [ha2b] at hnone
    simp at hnone
  · rw [ha2b] at hw2
    obtain rfl : w = w2 := by simpa using hw2
    rw [husers, hs1u]
    dsimp only
    rw [find?_updateUserById reqUserId w clearUnpaid (fun v => rfl),
        find?_updateUserById w w (reversalOf (setCommissionFlag a)) (fun v => rfl),
        find?_updateUserById w w (settlementOf fee a) (fun v => rfl), hu]
    simp only [Option.map_some']
    rw [if_pos hpu]
    simp only [settlementOf, reversalOf, clearUnpaid, setCommissionFlag]
    refine ⟨_, rfl, ?_, ?_⟩ <;>
      · split <;> · dsimp only; split <;> · dsimp only; omega

/-! ## Concrete close-then-republish scenario -/

def preCloseAuction : Auction :=
  { id := 1, createdBy := 2, title := "lamp", startingBid := 10, startTime := 0,
    endTime := 50, currentBid := 40, highestBidder := some 5, bids := [9],
    commissionCalculated := false }

def preCloseWinner : User := { id := 5, moneySpent := 12, auctionsWon := 3, unpaidCommission := 1 }

def preCloseStore : Store :=
  { auctions := [preCloseAuction], users := [preCloseWinner, sellerUser],
    bids := [{ id := 9, auctionItem := 1, bidder := 5, amount := 40 }] }

def postRepublishAuction : Auction :=
  { id := 1, createdBy := 2, title := "lamp", startingBid := 10, startTime := 150,
    endTime := 200, currentBid := 0, highestBidder := none, bids := [],
    commissionCalculated := false }

def postRepublishStore : Store :=
  { auctions := [postRepublishAuction],
    users := [{ id := 5, moneySpent := 12, auctionsWon := 3, unpaidCommission := 5 },
              { id := 2, moneySpent := 10, auctionsWon := 0, unpaidCommission := 0 }],
    bids := [] }

/-- C9 witness: close with fee 4 then republish at time 100 brings
winner 5 back to moneySpent 12 and auctionsWon 3. -/
theorem auction_C9_witness :
    preCloseStore.auctions.find? (fun x => x.id == 1) = some preCloseAuction ∧
    preCloseAuction.highestBidder = some 5 ∧
    preCloseStore.users.find? (fun x => x.id == 5) = some preCloseWinner ∧
    republishItem 100 2 1 (some 150) (some 200) (closeAuction 4 1 preCloseStore) =
      .ok (postRepublishStore, postRepublishAuction) ∧
    (∃ u', postRepublishStore.users.find? (fun x => x.id == 5) = some u' ∧
      u'.moneySpent = preCloseWinner.moneySpent ∧
      u'.auctionsWon = preCloseWinner.auctionsWon) :=
  ⟨rfl, rfl, rfl, rfl,
    auction_C9 100 4 2 1 5 (some 150) (some 200) preCloseStore postRepublishStore
      postRepublishAuction preCloseAuction preCloseWinner rfl rfl rfl rfl⟩
